import Mathlib

/-!
Verification development for the duckrail repository: a shallow embedding of
the query-composition layer (`src/main.py`, class `Analyzer`), the result
table builder (`src/writer.py`, class `TableMaker`) and the static
configuration (`src/config.py`), together with theorems settling the frozen
claims about the natural-language specification.

Conventions of the embedding:
- Python strings become Lean `String`s; the f-string bodies of the SQL
  queries are transcribed character for character (single quotes are written
  with the escape `\x27`).
- The in-memory DuckDB connection is external; what the embedding models is
  the exact SQL text handed to `con.execute` and the positional parameter
  list passed alongside it.  Engine results enter the model as an explicit
  `result` argument (the value `fetchall()` would have produced).
- Exceptions become `Except AppError`; Python mutation becomes explicit
  state passing (`TableMaker` values are threaded, and functions that mutate
  before raising return the mutated state together with the error).
-/

set_option maxRecDepth 40000

namespace DuckRail

/-- config.py: local file path for the services dataset. -/
def SVCS_CSV_FILE : String := "data/services-2023.csv.gz"

/-- config.py: remote URL for the services dataset. -/
def SVCS_CSV_URL : String := "https://blobs.duckdb.org/nl-railway/services-2023.csv.gz"

/-- config.py: local file path for the stations dataset. -/
def STAT_CSV_FILE : String := "data/stations-2022-01.csv"

/-- config.py: remote URL for the stations dataset. -/
def STAT_CSV_URL : String := "https://blobs.duckdb.org/data/stations-2022-01.csv"

/-- config.py: local file path for the tariff distances dataset. -/
def DIST_CSV_FILE : String := "data/tariff-distances-2022-01.csv"

/-- config.py: remote URL for the tariff distances dataset. -/
def DIST_CSV_URL : String := "https://blobs.duckdb.org/data/tariff-distances-2022-01.csv"

/-- config.py: logical table name for raw services. -/
def SVCS_TBL_NAME : String := "services"

/-- config.py: logical table name for the monthly service aggregation. -/
def SVCS_BY_MONTH_TBL_NAME : String := "services_per_month"

/-- config.py: logical table name for stations. -/
def STAT_TBL_NAME : String := "stations"

/-- config.py: logical table name for the wide distance matrix. -/
def DIST_TBL_NAME : String := "distances"

/-- config.py: logical table name for the unpivoted distance table. -/
def DIST_LNG_TBL_NAME : String := "distances_long"

/-- The `Literal["remote", "local"]` execution mode of `Analyzer.__init__`.
`loc` stands for the Python string "local" (`local` is a Lean keyword). -/
inductive Mode
  | loc
  | remote
  deriving DecidableEq, Repr

/-- main.py line 30: `SVCS_CSV_FILE if mode == "local" else SVCS_CSV_URL`. -/
def servicesFile : Mode → String
  | .loc => SVCS_CSV_FILE
  | .remote => SVCS_CSV_URL

/-- main.py line 31: `STAT_CSV_FILE if mode == "local" else STAT_CSV_URL`. -/
def stationsFile : Mode → String
  | .loc => STAT_CSV_FILE
  | .remote => STAT_CSV_URL

/-- main.py line 32: `DIST_CSV_FILE if mode == "local" else DIST_CSV_URL`. -/
def distancesFile : Mode → String
  | .loc => DIST_CSV_FILE
  | .remote => DIST_CSV_URL

/-- Python `repr` of a plain string containing neither quotes nor
backslashes: wrap in single quotes (this is what the `!r` conversions in the
f-strings of `Analyzer.__init__` produce for the file paths and URLs). -/
def pyrepr (s : String) : String := "\x27" ++ s ++ "\x27"

/-- The error taxonomy of the program. `noSubquery` is the
`Exception(f"No subquery defined for ...")` raised by `add_cte` and
`create_tbl`; `errNoResults` is `ErrNoResults` from the repository's errors
module; `mismatch` is the `Exception(f"Mismatched column count: got ...,
expected ...")` raised by `TableMaker.with_rows`. -/
inductive AppError
  | noSubquery (tbl : String)
  | errNoResults
  | mismatch (got expected : Nat)
  deriving DecidableEq, Repr

/-- main.py lines 40-57: the `self.subqueries` registry built in
`Analyzer.__init__`, mapping each logical table name to its defining query
(an f-string parameterized by the mode-resolved file references).  A Python
`dict.get` miss is `none`. -/
def subqueries (m : Mode) (tbl : String) : Option String :=
  if tbl = SVCS_BY_MONTH_TBL_NAME then
    some ("\n            SELECT\n                month(\"Service:Date\") AS month,\n                \"Stop:station name\" AS station,\n                count(*) AS num_services\n            FROM " ++ pyrepr (servicesFile m) ++ "\n            GROUP BY ALL\n            ")
  else if tbl = DIST_LNG_TBL_NAME then
    some ("\n            UNPIVOT " ++ DIST_TBL_NAME ++ "\n            ON COLUMNS (* EXCLUDE station)\n            INTO NAME other_station VALUE distance\n            ")
  else if tbl = SVCS_TBL_NAME then
    some ("FROM " ++ pyrepr (servicesFile m))
  else if tbl = STAT_TBL_NAME then
    some ("FROM " ++ pyrepr (stationsFile m))
  else if tbl = DIST_TBL_NAME then
    some ("FROM read_csv(" ++ pyrepr (distancesFile m) ++ ", nullstr=\x27XXX\x27)")
  else none

/-- main.py lines 82-90, `Analyzer.add_cte`: look up the defining query of
`tbl` and prefix `qry` with a `WITH tbl AS (subqry)` clause.  Python's
`if not subqry` is falsy both for a missing key and for an empty string, and
raises `Exception(f"No subquery defined for {tbl}")`. -/
def add_cte (m : Mode) (qry tbl : String) : Except AppError String :=
  match subqueries m tbl with
  | none => .error (.noSubquery tbl)
  | some subqry =>
    if subqry = "" then .error (.noSubquery tbl)
    else .ok ("\n        WITH " ++ tbl ++ " AS (" ++ subqry ++ ")\n        " ++ qry ++ "\n        ")

/-- main.py lines 66-73, `Analyzer.create_tbl`: the SQL text of the eager
materialization statement, or the same configuration error as `add_cte` when
no defining query is registered. -/
def create_tbl (m : Mode) (tbl : String) : Except AppError String :=
  match subqueries m tbl with
  | none => .error (.noSubquery tbl)
  | some subqry =>
    if subqry = "" then .error (.noSubquery tbl)
    else .ok ("\n        CREATE TABLE " ++ tbl ++ " AS (" ++ subqry ++ ")\n        ")

/-- main.py lines 62-64, `Analyzer.is_remote`. -/
def is_remote (m : Mode) : Bool := m == Mode.remote

/-- main.py lines 108-116: the base query of `get_busiest_by_month`
(f-string body, with `$1` the positional placeholder for `month_cutoff`). -/
def busiestBase : String :=
  "\n        SELECT\n            month,\n            arg_max(station, num_services) AS station,\n            max(num_services) AS num_services\n        FROM " ++ SVCS_BY_MONTH_TBL_NAME ++ "\n        WHERE month <= $1\n        GROUP BY ALL;\n        "

/-- main.py lines 139-155: the base query of `get_top_n_stations_in_period`
(placeholders `$1`/`$2` for the month range and `$3` for `n`). -/
def topNBase : String :=
  "\n        SELECT month, month_name, array_agg(station) AS top_stations\n        FROM (\n            SELECT\n                month,\n                strftime(make_date(2023, month, 1), \x27%B\x27) AS month_name,\n                rank() OVER\n                    (PARTITION BY month ORDER BY num_services DESC) AS rank,\n                station,\n                num_services\n            FROM " ++ SVCS_BY_MONTH_TBL_NAME ++ "\n            WHERE month BETWEEN $1 AND $2\n        )\n        WHERE rank <= $3\n        GROUP BY ALL\n        ORDER BY month;\n        "

/-- main.py lines 175-185: the base query of `get_stations`
(placeholder `$1` for `limit`). -/
def stationsBase : String :=
  "\n        SELECT\n            id,\n            name_short,\n            name_long,\n            country,\n            printf(\x27%.2f\x27, geo_lat) AS latitude,\n            printf(\x27%.2f\x27, geo_lng) AS longitude\n        FROM " ++ STAT_TBL_NAME ++ "\n        LIMIT $1\n        "

/-- main.py lines 208-212: the base query of `get_distances`
(placeholder `$1` for `limit`). -/
def distancesBase : String :=
  "\n        SELECT station, other_station, distance\n        FROM " ++ DIST_LNG_TBL_NAME ++ "\n        LIMIT $1\n        "

/-- main.py lines 233-249: the base query of `get_station_pairs`.  The
`order` argument ("ASC" or "DESC") is interpolated directly into the text by
the f-string; `limit` is the positional placeholder `$1`. -/
def pairsBase (order : String) : String :=
  "\n        SELECT\n            s1.name_long AS station1,\n            s2.name_long AS station2,\n            " ++ DIST_LNG_TBL_NAME ++ ".distance\n        FROM " ++ DIST_LNG_TBL_NAME ++ "\n        JOIN\n            " ++ STAT_TBL_NAME ++ " s1 ON " ++ DIST_LNG_TBL_NAME ++ ".station = s1.code\n        JOIN\n            " ++ STAT_TBL_NAME ++ " s2 ON " ++ DIST_LNG_TBL_NAME ++ ".other_station = s2.code\n        WHERE\n            s1.country = \x27NL\x27\n            AND s2.country = \x27NL\x27\n            AND station < other_station\n        ORDER BY distance " ++ order ++ "\n        LIMIT $1\n        "

/-- main.py lines 118-119: the query text `get_busiest_by_month` hands to
`con.execute` (CTE-wrapped exactly when `self.is_remote`). -/
def busiestQryExec (m : Mode) : Except AppError String :=
  if is_remote m then add_cte m busiestBase SVCS_BY_MONTH_TBL_NAME else .ok busiestBase

/-- main.py lines 157-158: the executed query text of
`get_top_n_stations_in_period`. -/
def topNQryExec (m : Mode) : Except AppError String :=
  if is_remote m then add_cte m topNBase SVCS_BY_MONTH_TBL_NAME else .ok topNBase

/-- main.py lines 187-188: the executed query text of `get_stations`. -/
def stationsQryExec (m : Mode) : Except AppError String :=
  if is_remote m then add_cte m stationsBase STAT_TBL_NAME else .ok stationsBase

/-- main.py lines 214-215: the executed query text of `get_distances`. -/
def distancesQryExec (m : Mode) : Except AppError String :=
  if is_remote m then add_cte m distancesBase DIST_LNG_TBL_NAME else .ok distancesBase

/-- main.py lines 230-251: the executed query text of `get_station_pairs`.
Unlike every other report method, the source contains no
`if self.is_remote: qry = self.add_cte(...)` step, so the text is the raw
base query in both modes (the mode argument is deliberately unused, exactly
as in the source). -/
def pairsQryExec (_m : Mode) (order : String) : Except AppError String :=
  .ok (pairsBase order)

/-- The full `con.execute(qry, [month_cutoff])` call of
`get_busiest_by_month`: query text paired with the positional bindings. -/
def get_busiest_call (m : Mode) (month_cutoff : Int) : Except AppError (String × List Int) :=
  (busiestQryExec m).map (fun q => (q, [month_cutoff]))

/-- The `con.execute(qry, [start, end, n])` call of
`get_top_n_stations_in_period` (main.py line 160); `stop` stands for the
Python parameter `end`, a Lean keyword. -/
def get_top_n_call (m : Mode) (n start stop : Int) : Except AppError (String × List Int) :=
  (topNQryExec m).map (fun q => (q, [start, stop, n]))

/-- The `con.execute(qry, [limit])` call of `get_stations` (main.py 190). -/
def get_stations_call (m : Mode) (limit : Int) : Except AppError (String × List Int) :=
  (stationsQryExec m).map (fun q => (q, [limit]))

/-- The `con.execute(qry, [limit])` call of `get_distances` (main.py 217). -/
def get_distances_call (m : Mode) (limit : Int) : Except AppError (String × List Int) :=
  (distancesQryExec m).map (fun q => (q, [limit]))

/-- The `con.execute(qry, [limit])` call of `get_station_pairs`
(main.py 251). -/
def get_station_pairs_call (m : Mode) (order : String) (limit : Int) :
    Except AppError (String × List Int) :=
  (pairsQryExec m order).map (fun q => (q, [limit]))

/-- A Python scalar cell value as it appears in an engine result row.  Only
its `str(...)` form matters to the builder. -/
inductive PyVal
  | vInt (n : Int)
  | vStr (s : String)
  deriving DecidableEq, Repr

/-- Python `str` on a cell value. -/
def pyStr : PyVal → String
  | .vInt n => toString n
  | .vStr s => s

/-- The `rich.table.Table` artifact as far as the core manipulates it: a
title, the columns added so far and the rows added so far. -/
structure RTable where
  title : String
  columns : List String
  rows : List (List String)
  deriving DecidableEq, Repr

/-- One entry of `TableMaker.rows`.  writer.py line 24 stores a generator
`(str(data) for data in row)`; `cells` is the sequence of strings the
generator yields and `consumed` records whether it has been exhausted (a
generator unpacked by `add_row(*row)` yields nothing afterwards). -/
structure StoredRow where
  cells : List String
  consumed : Bool
  deriving DecidableEq, Repr

/-- writer.py, class `TableMaker`: the underlying `rich` table plus the
accumulated `cols` and `rows` lists.  `cols` holds the names (the source
wraps each in a one-element tuple solely to splat it into `add_column`). -/
structure TableMaker where
  table : RTable
  cols : List String
  rows : List StoredRow
  deriving DecidableEq, Repr

/-- writer.py lines 7-11, `TableMaker.__init__`. -/
def mkTableMaker (title : String) : TableMaker :=
  { table := { title := title, columns := [], rows := [] }, cols := [], rows := [] }

/-- writer.py lines 13-15, `TableMaker.with_column`. -/
def with_column (tm : TableMaker) (name : String) : TableMaker :=
  { tm with cols := tm.cols ++ [name] }

/-- writer.py lines 17-26, `TableMaker.with_rows`: rows are validated one at
a time against the current column count and appended as they pass; the first
mismatching row raises, leaving the rows appended so far in place (Python
mutates `self.rows` before the exception propagates), so the mutated state
is returned together with the error. -/
def with_rows (tm : TableMaker) : List (List PyVal) → TableMaker × Option AppError
  | [] => (tm, none)
  | r :: rs =>
    if r.length = tm.cols.length then
      with_rows { tm with rows := tm.rows ++ [{ cells := r.map pyStr, consumed := false }] } rs
    else
      (tm, some (.mismatch r.length tm.cols.length))

/-- writer.py lines 28-35, `TableMaker.build`: add every accumulated column
and every accumulated row to the underlying table and return that table.
The returned artifact aliases the builder's own `self.table`, and unpacking
a stored row generator exhausts it, so the post-call builder state is
returned alongside (its `table` is the artifact, its generators consumed). -/
def build (tm : TableMaker) : RTable × TableMaker :=
  let t : RTable :=
    { tm.table with
      columns := tm.table.columns ++ tm.cols,
      rows := tm.table.rows ++ tm.rows.map (fun sr => if sr.consumed then [] else sr.cells) }
  (t, { tm with table := t, rows := tm.rows.map (fun sr => { sr with consumed := true }) })

/-- The `Analyzer` session state the claims depend on: the fixed mode, the
three mode-resolved dataset references, and the list of tables eagerly
materialized by `load_local_data` (in call order). -/
structure Analyzer where
  mode : Mode
  services_file : String
  stations_file : String
  distances_file : String
  materialized : List String
  deriving DecidableEq, Repr

/-- main.py lines 75-80, `Analyzer.load_local_data`: the `create_tbl` call
order. -/
def load_local_order : List String :=
  [SVCS_TBL_NAME, SVCS_BY_MONTH_TBL_NAME, STAT_TBL_NAME, DIST_TBL_NAME, DIST_LNG_TBL_NAME]

/-- main.py lines 26-60, `Analyzer.__init__(mode="remote")`: the default
argument is the Python string "remote"; file references are resolved by
mode and `load_local_data` runs only when `mode == "local"`. -/
def mkAnalyzer (mode : optParam Mode Mode.remote) : Analyzer :=
  { mode := mode,
    services_file := servicesFile mode,
    stations_file := stationsFile mode,
    distances_file := distancesFile mode,
    materialized := if mode = Mode.loc then load_local_order else [] }

/-- The `TableMaker(title).with_column(c1)...with_rows(result).build()`
chain shared by every report method: columns in order, then the full row
set, then finalize.  A `with_rows` failure propagates as the raised
exception does in Python. -/
def reportTable (title : String) (cols : List String) (result : List (List PyVal)) :
    Except AppError RTable :=
  match with_rows (cols.foldl with_column (mkTableMaker title)) result with
  | (_, some e) => .error e
  | (tm2, none) => .ok (build tm2).1

/-- main.py lines 107-133, `Analyzer.get_busiest_by_month`: compose the
query, execute it (the engine's `fetchall()` value enters as `result`),
raise `ErrNoResults` on an empty result, otherwise build the table. -/
def get_busiest_by_month (m : Mode) (_month_cutoff : Int) (result : List (List PyVal)) :
    Except AppError RTable :=
  match busiestQryExec m with
  | .error e => .error e
  | .ok _ =>
    if result.isEmpty then .error .errNoResults
    else reportTable "Busiest Station by Month" ["month", "station", "num_services"] result

/-- main.py lines 135-172, `Analyzer.get_top_n_stations_in_period`
(`stop` stands for the Python parameter `end`). -/
def get_top_n_stations_in_period (m : Mode) (n _start _stop : Int)
    (result : List (List PyVal)) : Except AppError RTable :=
  match topNQryExec m with
  | .error e => .error e
  | .ok _ =>
    if result.isEmpty then .error .errNoResults
    else reportTable ("Top " ++ toString n ++ " Stations in Months " ++ toString _start ++ "-" ++ toString _stop)
      ["month", "month_name", "top_stations"] result

/-- main.py lines 174-205, `Analyzer.get_stations`. -/
def get_stations (m : Mode) (_limit : Int) (result : List (List PyVal)) :
    Except AppError RTable :=
  match stationsQryExec m with
  | .error e => .error e
  | .ok _ =>
    if result.isEmpty then .error .errNoResults
    else reportTable "Stations"
      ["id", "name_short", "name_long", "country", "latitude", "longitude"] result

/-- main.py lines 207-228, `Analyzer.get_distances`. -/
def get_distances (m : Mode) (_limit : Int) (result : List (List PyVal)) :
    Except AppError RTable :=
  match distancesQryExec m with
  | .error e => .error e
  | .ok _ =>
    if result.isEmpty then .error .errNoResults
    else reportTable "Station Pair Distances" ["station", "other_station", "distance"] result

/-- main.py lines 230-264, `Analyzer.get_station_pairs`. -/
def get_station_pairs (m : Mode) (order : String) (_limit : Int)
    (result : List (List PyVal)) : Except AppError RTable :=
  match pairsQryExec m order with
  | .error e => .error e
  | .ok _ =>
    if result.isEmpty then .error .errNoResults
    else reportTable ((if order = "DESC" then "Furthest" else "Shortest") ++ " Station Distances")
      ["station1", "station2", "distance"] result

/-- One row of the `services_per_month` relation as seen by the inner query
of `get_top_n_stations_in_period`. -/
structure MRow where
  month : Nat
  station : String
  num_services : Nat
  deriving DecidableEq, Repr

/-- The SQL window `rank() OVER (PARTITION BY month ORDER BY num_services
DESC)` of main.py lines 145-146, under standard competition-ranking
semantics: one plus the number of rows of the same partition strictly ahead
in the ordering. -/
def svcRank (rows : List MRow) (r : MRow) : Nat :=
  1 + (rows.filter (fun x => x.month == r.month && decide (r.num_services < x.num_services))).length

/-- The `WHERE month BETWEEN $1 AND $2` filter of main.py line 150. -/
def inPeriod (start stop : Nat) (r : MRow) : Bool :=
  decide (start ≤ r.month) && decide (r.month ≤ stop)

/-- The row selection of `get_top_n_stations_in_period` (main.py lines
139-155): restrict `services_per_month` to the requested month range, rank
within each month by service count descending, and keep rows with
`rank <= $3`.  (The outer `array_agg` grouping only reshapes the selected
rows and is irrelevant to which stations appear.) -/
def topNPerMonth (rows : List MRow) (n start stop : Nat) : List MRow :=
  let filtered := rows.filter (inPeriod start stop)
  filtered.filter (fun r => decide (svcRank filtered r ≤ n))

/-- `isPreOf pat l` holds when the character list `pat` starts the list
`l`. -/
def isPreOf : List Char → List Char → Bool
  | [], _ => true
  | _ :: _, [] => false
  | a :: as, b :: bs => a == b && isPreOf as bs

/-- `hasSub pat l`: `pat` occurs as a contiguous sublist of `l`. -/
def hasSub (pat : List Char) : List Char → Bool
  | [] => pat.isEmpty
  | c :: t => isPreOf pat (c :: t) || hasSub pat t

/-- `containsStr s pat`: `pat` occurs as a substring of `s`. -/
def containsStr (s pat : String) : Bool := hasSub pat.toList s.toList

/-- A concrete `services_per_month` row set: in month 6 three stations tie
for rank 1 with 10 services each and one station trails with 5; month 7 has
a lone station; month 12 lies outside the 6-8 range used below. -/
def c8rows : List MRow :=
  [{ month := 6, station := "A", num_services := 10 },
   { month := 6, station := "B", num_services := 10 },
   { month := 6, station := "C", num_services := 10 },
   { month := 6, station := "D", num_services := 5 },
   { month := 7, station := "E", num_services := 4 },
   { month := 12, station := "F", num_services := 9 }]

/-! Theorems settling the claims. -/

/-- C10: an Analyzer constructed without an explicit mode argument defaults
to remote mode — no table is eagerly materialized and every dataset resolves
to its remote URL rather than its local file path. -/
theorem C10_default_mode_remote :
    mkAnalyzer = { mode := Mode.remote, services_file := SVCS_CSV_URL,
                   stations_file := STAT_CSV_URL, distances_file := DIST_CSV_URL,
                   materialized := [] } := rfl

/-- C5: in local (eager) mode query composition is the identity transform —
for every report method the executed SQL text is exactly the base query,
with no `WITH` prelude anywhere in it, referencing the logical tables by
their persisted names. -/
theorem C5_local_mode_identity (o : String) :
    busiestQryExec Mode.loc = .ok busiestBase ∧
    topNQryExec Mode.loc = .ok topNBase ∧
    stationsQryExec Mode.loc = .ok stationsBase ∧
    distancesQryExec Mode.loc = .ok distancesBase ∧
    pairsQryExec Mode.loc o = .ok (pairsBase o) ∧
    containsStr busiestBase "WITH" = false ∧
    containsStr topNBase "WITH" = false ∧
    containsStr stationsBase "WITH" = false ∧
    containsStr distancesBase "WITH" = false ∧
    containsStr (pairsBase "ASC") "WITH" = false ∧
    containsStr (pairsBase "DESC") "WITH" = false ∧
    containsStr busiestBase SVCS_BY_MONTH_TBL_NAME = true ∧
    containsStr stationsBase STAT_TBL_NAME = true ∧
    containsStr distancesBase DIST_LNG_TBL_NAME = true := by
  refine ⟨rfl, rfl, rfl, rfl, rfl, ?_, ?_, ?_, ?_, ?_, ?_, ?_, ?_, ?_⟩ <;> decide

/-- C3: for every report method, a zero-row engine result makes the method
raise `ErrNoResults`; it never returns a zero-row Result Table. -/
theorem C3_empty_result_raises (m : Mode) (c n s e l1 l2 l3 : Int) (o : String) :
    get_busiest_by_month m c [] = .error AppError.errNoResults ∧
    get_top_n_stations_in_period m n s e [] = .error AppError.errNoResults ∧
    get_stations m l1 [] = .error AppError.errNoResults ∧
    get_distances m l2 [] = .error AppError.errNoResults ∧
    get_station_pairs m o l3 [] = .error AppError.errNoResults := by
  cases m <;> exact ⟨rfl, rfl, rfl, rfl, rfl⟩

/-- C1, evaluated at the failing input: in remote mode `get_station_pairs`
hands the engine its base query unchanged — identical to the local-mode
text, containing no `WITH` prelude although it references `distances_long`
and `stations` — and the remote `get_distances` query inlines only the
`distances_long` CTE, whose body still references the table `distances`
without any `WITH distances AS (...)` clause, so neither executed query is
self-contained. -/
theorem C1_remote_cte_gaps :
    pairsQryExec Mode.remote "DESC" = pairsQryExec Mode.loc "DESC" ∧
    containsStr (pairsBase "DESC") "WITH" = false ∧
    containsStr (pairsBase "DESC") DIST_LNG_TBL_NAME = true ∧
    containsStr (pairsBase "DESC") STAT_TBL_NAME = true ∧
    (distancesQryExec Mode.remote).toOption.isSome = true ∧
    containsStr ((distancesQryExec Mode.remote).toOption.getD "")
      ("WITH " ++ DIST_TBL_NAME ++ " AS (") = false ∧
    containsStr ((distancesQryExec Mode.remote).toOption.getD "")
      ("UNPIVOT " ++ DIST_TBL_NAME) = true := by
  refine ⟨rfl, ?_, ?_, ?_, ?_, ?_, ?_⟩ <;> decide

/-- C9, counterexample: the `order` argument of `get_station_pairs` is
string-interpolated into the executed query body, so two calls in the same
session with different order directions hand the engine different texts —
the text is not composed of session-fixed identifiers and file references
only. -/
theorem C9_order_interpolated_cex :
    (get_station_pairs_call Mode.remote "ASC" 3).map Prod.fst = Except.ok (pairsBase "ASC") ∧
    (get_station_pairs_call Mode.remote "DESC" 3).map Prod.fst = Except.ok (pairsBase "DESC") ∧
    pairsBase "ASC" ≠ pairsBase "DESC" := by
  refine ⟨rfl, rfl, fun heq => ?_⟩
  have h1 : containsStr (pairsBase "ASC") " ASC\n" = true := by decide
  have h2 : containsStr (pairsBase "DESC") " ASC\n" = false := by decide
  rw [heq] at h1
  rw [h1] at h2
  exact Bool.noConfusion h2

/-- C9, amended: for every report method and any two choices of the
enumerated data parameter values (month cutoff, n, start, end, limit), the
query text handed to the engine is identical, and those values are bound
positionally in the documented order rather than interpolated; only the
`order` direction of `get_station_pairs` is interpolated into the text. -/
theorem C9_data_params_not_in_text (m : Mode) (c1 c2 n1 s1 e1 n2 s2 e2 l1 l2 l3 l4 l5 l6 : Int)
    (o : String) :
    (get_busiest_call m c1).map Prod.fst = (get_busiest_call m c2).map Prod.fst ∧
    (get_busiest_call m c1).map Prod.snd = (busiestQryExec m).map (fun _ => [c1]) ∧
    (get_top_n_call m n1 s1 e1).map Prod.fst = (get_top_n_call m n2 s2 e2).map Prod.fst ∧
    (get_top_n_call m n1 s1 e1).map Prod.snd = (topNQryExec m).map (fun _ => [s1, e1, n1]) ∧
    (get_stations_call m l1).map Prod.fst = (get_stations_call m l2).map Prod.fst ∧
    (get_stations_call m l1).map Prod.snd = (stationsQryExec m).map (fun _ => [l1]) ∧
    (get_distances_call m l3).map Prod.fst = (get_distances_call m l4).map Prod.fst ∧
    (get_distances_call m l3).map Prod.snd = (distancesQryExec m).map (fun _ => [l3]) ∧
    (get_station_pairs_call m o l5).map Prod.fst = (get_station_pairs_call m o l6).map Prod.fst ∧
    (get_station_pairs_call m o l5).map Prod.snd = (pairsQryExec m o).map (fun _ => [l5]) := by
  cases m <;> exact ⟨rfl, rfl, rfl, rfl, rfl, rfl, rfl, rfl, rfl, rfl⟩

/-- Helper: the column list of a built artifact. -/
theorem build_fst_columns (tm : TableMaker) :
    (build tm).1.columns = tm.table.columns ++ tm.cols := rfl

/-- Helper: the row list of a built artifact. -/
theorem build_fst_rows (tm : TableMaker) :
    (build tm).1.rows
      = tm.table.rows ++ tm.rows.map (fun sr => if sr.consumed then [] else sr.cells) := rfl

/-- Helper: folding `with_column` over a name list appends the names to
`cols` and leaves the table and rows untouched. -/
theorem foldl_with_column_spec (cols : List String) (tm : TableMaker) :
    (cols.foldl with_column tm).cols = tm.cols ++ cols ∧
    (cols.foldl with_column tm).table = tm.table ∧
    (cols.foldl with_column tm).rows = tm.rows := by
  induction cols generalizing tm with
  | nil => simp
  | cons c cs ih =>
    simpa [with_column, List.append_assoc] using ih (with_column tm c)

/-- Helper: a successful `with_rows` call leaves `cols` and the underlying
table unchanged and appends only unconsumed rows whose cell count equals the
column count in force during the call. -/
theorem with_rows_ok (rvs : List (List PyVal)) (tm : TableMaker)
    (h : (with_rows tm rvs).2 = none) :
    (with_rows tm rvs).1.cols = tm.cols ∧
    (with_rows tm rvs).1.table = tm.table ∧
    ∃ new, (with_rows tm rvs).1.rows = tm.rows ++ new ∧
      ∀ sr ∈ new, sr.cells.length = tm.cols.length ∧ sr.consumed = false := by
  induction rvs generalizing tm with
  | nil => exact ⟨rfl, rfl, [], by simp [with_rows], by simp⟩
  | cons r rs ih =>
    by_cases hr : r.length = tm.cols.length
    · have hstep :
          with_rows tm (r :: rs)
            = with_rows { tm with rows := tm.rows ++ [{ cells := r.map pyStr, consumed := false }] } rs := by
        simp [with_rows, hr]
      rw [hstep] at h ⊢
      obtain ⟨hc, ht, new, hrows, hnew⟩ :=
        ih { tm with rows := tm.rows ++ [{ cells := r.map pyStr, consumed := false }] } h
      refine ⟨hc, ht, { cells := r.map pyStr, consumed := false } :: new, ?_, ?_⟩
      · simpa [List.append_assoc] using hrows
      · intro sr hsr
        rcases List.mem_cons.mp hsr with h1 | h1
        · simp [h1, hr]
        · exact hnew sr h1
    · exfalso
      have : (with_rows tm (r :: rs)).2 = some (.mismatch r.length tm.cols.length) := by
        simp [with_rows, hr]
      rw [this] at h
      exact Option.noConfusion h

/-- C2, counterexample: with one declared column, passing the row set
`[["x"], ["x", "y"]]` raises the schema-mismatch error carrying both counts
(got 2, expected 1), yet the builder has retained the first, well-formed row
of the same call — the claim that no rows from the call are retained fails. -/
theorem C2_prior_rows_retained_cex :
    (with_rows (with_column (mkTableMaker "t") "a")
        [[PyVal.vStr "x"], [PyVal.vStr "x", PyVal.vStr "y"]]).2
      = some (AppError.mismatch 2 1) ∧
    (with_rows (with_column (mkTableMaker "t") "a")
        [[PyVal.vStr "x"], [PyVal.vStr "x", PyVal.vStr "y"]]).1.rows
      = [{ cells := ["x"], consumed := false }] := by
  decide

/-- C2, amended: when a row set contains a mismatching row, `with_rows`
fails with the schema-mismatch error carrying the offending row's length and
the declared column count, the mismatching row and everything after it are
not retained, but the well-formed rows preceding it in the same call have
already been appended to the builder state. -/
theorem C2_first_mismatch_retains_prior (tm : TableMaker) (pre post : List (List PyVal))
    (bad : List PyVal)
    (hpre : ∀ r ∈ pre, r.length = tm.cols.length)
    (hbad : bad.length ≠ tm.cols.length) :
    (with_rows tm (pre ++ bad :: post)).2
      = some (AppError.mismatch bad.length tm.cols.length) ∧
    (with_rows tm (pre ++ bad :: post)).1.rows
      = tm.rows ++ pre.map (fun r => { cells := r.map pyStr, consumed := false }) := by
  induction pre generalizing tm with
  | nil =>
    refine ⟨?_, ?_⟩ <;> simp [with_rows, hbad]
  | cons r pre ih =>
    have hr : r.length = tm.cols.length := hpre r (by simp)
    have hstep :
        with_rows tm ((r :: pre) ++ bad :: post)
          = with_rows { tm with rows := tm.rows ++ [{ cells := r.map pyStr, consumed := false }] } (pre ++ bad :: post) := by
      simp [with_rows, hr]
    rw [hstep]
    have := ih { tm with rows := tm.rows ++ [{ cells := r.map pyStr, consumed := false }] }
      (fun x hx => hpre x (by simp [hx])) hbad
    refine ⟨this.1, ?_⟩
    simpa [List.append_assoc] using this.2

/-- C2 witness: the amended theorem applied at a concrete builder with one
column, one well-formed leading row and a two-cell mismatching row. -/
theorem C2_first_mismatch_retains_prior_witness :
    ((∀ r ∈ [[PyVal.vStr "x"]], r.length = (with_column (mkTableMaker "t") "a").cols.length) ∧
      ([PyVal.vStr "x", PyVal.vStr "y"].length ≠ (with_column (mkTableMaker "t") "a").cols.length)) ∧
    ((with_rows (with_column (mkTableMaker "t") "a")
        ([[PyVal.vStr "x"]] ++ [PyVal.vStr "x", PyVal.vStr "y"] :: [])).2
      = some (AppError.mismatch [PyVal.vStr "x", PyVal.vStr "y"].length (with_column (mkTableMaker "t") "a").cols.length) ∧
     (with_rows (with_column (mkTableMaker "t") "a")
        ([[PyVal.vStr "x"]] ++ [PyVal.vStr "x", PyVal.vStr "y"] :: [])).1.rows
      = (with_column (mkTableMaker "t") "a").rows
          ++ [[PyVal.vStr "x"]].map (fun r => { cells := r.map pyStr, consumed := false })) :=
  ⟨⟨by decide, by decide⟩,
    C2_first_mismatch_retains_prior (with_column (mkTableMaker "t") "a")
      [[PyVal.vStr "x"]] [] [PyVal.vStr "x", PyVal.vStr "y"] (by decide) (by decide)⟩

/-- C4, counterexample: declaring a column, supplying a one-cell row, then
declaring a second column and building yields — without any error — a
finished table with two columns whose only row has length one, so the
build-time arity invariant does not hold regardless of call order. -/
theorem C4_build_no_revalidation_cex :
    (with_rows (with_column (mkTableMaker "t") "a") [[PyVal.vStr "x"]]).2 = none ∧
    (build (with_column
        (with_rows (with_column (mkTableMaker "t") "a") [[PyVal.vStr "x"]]).1 "b")).1.columns
      = ["a", "b"] ∧
    (build (with_column
        (with_rows (with_column (mkTableMaker "t") "a") [[PyVal.vStr "x"]]).1 "b")).1.rows
      = [["x"]] := by
  decide

/-- C4, amended: arity is enforced only at `with_rows` time, against the
columns declared so far; in the canonical order — all columns declared
first, then a row set accepted by `with_rows` — every row of the finished
table produced by `build` has length equal to the table's column count. -/
theorem C4_arity_when_columns_first (title : String) (cols : List String)
    (rvs : List (List PyVal))
    (h : (with_rows (cols.foldl with_column (mkTableMaker title)) rvs).2 = none) :
    ∀ r ∈ (build (with_rows (cols.foldl with_column (mkTableMaker title)) rvs).1).1.rows,
      r.length
        = (build (with_rows (cols.foldl with_column (mkTableMaker title)) rvs).1).1.columns.length := by
  obtain ⟨hc0, ht0, hr0⟩ := foldl_with_column_spec cols (mkTableMaker title)
  obtain ⟨hc, ht, new, hrows, hnew⟩ := with_rows_ok rvs (cols.foldl with_column (mkTableMaker title)) h
  have etab : (with_rows (cols.foldl with_column (mkTableMaker title)) rvs).1.table
      = (mkTableMaker title).table := ht.trans ht0
  have ecols : (with_rows (cols.foldl with_column (mkTableMaker title)) rvs).1.cols
      = cols := by rw [hc, hc0]; simp [mkTableMaker]
  have erows : (with_rows (cols.foldl with_column (mkTableMaker title)) rvs).1.rows
      = new := by rw [hrows, hr0]; simp [mkTableMaker]
  intro r hr
  rw [build_fst_rows, etab, erows] at hr
  rw [build_fst_columns, etab, ecols]
  simp only [mkTableMaker, List.nil_append] at hr ⊢
  rw [List.mem_map] at hr
  obtain ⟨sr, hsr, hval⟩ := hr
  obtain ⟨hlen, hcons⟩ := hnew sr hsr
  have hlen2 : sr.cells.length = cols.length := by
    rw [hlen, hc0]; simp [mkTableMaker]
  rw [← hval, hcons]
  simpa using hlen2

/-- C4 witness: the amended theorem applied with two columns declared first
and one two-cell row. -/
theorem C4_arity_when_columns_first_witness :
    ((with_rows ((["a", "b"] : List String).foldl with_column (mkTableMaker "t"))
        [[PyVal.vStr "x", PyVal.vStr "y"]]).2 = none) ∧
    (∀ r ∈ (build (with_rows ((["a", "b"] : List String).foldl with_column (mkTableMaker "t"))
        [[PyVal.vStr "x", PyVal.vStr "y"]]).1).1.rows,
      r.length
        = (build (with_rows ((["a", "b"] : List String).foldl with_column (mkTableMaker "t"))
            [[PyVal.vStr "x", PyVal.vStr "y"]]).1).1.columns.length) :=
  ⟨by decide,
    C4_arity_when_columns_first "t" ["a", "b"] [[PyVal.vStr "x", PyVal.vStr "y"]] (by decide)⟩

/-- C7: a `TableMaker` is single-use — calling `build` a second time cannot
reproduce a clean second table: the second artifact's column list is the
first one's with the declared columns appended again (duplicated), every row
stored before the first build reappears as an empty row (its generator was
exhausted by the first build), and the second artifact differs from the
first whenever at least one column was declared. -/
theorem C7_second_build_corrupts (tm : TableMaker) (h : tm.cols ≠ []) :
    (build (build tm).2).1.columns = (build tm).1.columns ++ tm.cols ∧
    (build (build tm).2).1.rows
      = (build tm).1.rows ++ tm.rows.map (fun _ => ([] : List String)) ∧
    (build (build tm).2).1 ≠ (build tm).1 := by
  refine ⟨rfl, ?_, ?_⟩
  · have hmap : (tm.rows.map (fun sr => { sr with consumed := true })).map
        (fun sr => if sr.consumed then [] else sr.cells)
        = tm.rows.map (fun _ => ([] : List String)) := by
      induction tm.rows with
      | nil => rfl
      | cons a t iht => simpa using iht
    exact congrArg ((build tm).1.rows ++ ·) hmap
  · intro heq
    have hc := congrArg RTable.columns heq
    have hl := congrArg List.length hc
    simp [build] at hl
    exact h hl

/-- C7 witness: the theorem applied to a builder with one declared column. -/
theorem C7_second_build_corrupts_witness :
    (with_column (mkTableMaker "t") "a").cols ≠ [] ∧
    (build (build (with_column (mkTableMaker "t") "a")).2).1
      ≠ (build (with_column (mkTableMaker "t") "a")).1 :=
  ⟨by decide,
    (C7_second_build_corrupts (with_column (mkTableMaker "t") "a") (by decide)).2.2⟩

/-- C6: for a table name with no registered defining query, both CTE
composition (`add_cte`) and eager materialization (`create_tbl`) raise the
configuration error naming the table, and that error is distinct from the
empty-result error raised when a query runs but returns nothing. -/
theorem C6_unknown_table_config_error (m : Mode) (qry tbl : String)
    (h : subqueries m tbl = none) :
    add_cte m qry tbl = .error (AppError.noSubquery tbl) ∧
    create_tbl m tbl = .error (AppError.noSubquery tbl) ∧
    ∀ t, AppError.noSubquery t ≠ AppError.errNoResults := by
  refine ⟨?_, ?_, fun t h2 => AppError.noConfusion h2⟩ <;>
    simp [add_cte, create_tbl, h]

/-- C6 witness: the table name "riders" has no registered defining query in
either mode, and both operations fail with the configuration error. -/
theorem C6_unknown_table_config_error_witness :
    subqueries Mode.remote "riders" = none ∧
    (add_cte Mode.remote "SELECT 1" "riders" = .error (AppError.noSubquery "riders") ∧
     create_tbl Mode.remote "riders" = .error (AppError.noSubquery "riders") ∧
     ∀ t, AppError.noSubquery t ≠ AppError.errNoResults) :=
  ⟨by decide, C6_unknown_table_config_error Mode.remote "SELECT 1" "riders" (by decide)⟩

/-- C8: the top-N-per-month selection has standard competition-ranking
semantics — within a month, rows with equal service counts share a rank, and
a row is selected exactly when it lies in the requested month range and
fewer than n rows of its month have a strictly greater service count (so all
members of a tie at a qualifying rank are included, and rows pushed beyond n
by higher-counted rows are excluded). -/
theorem C8_rank_semantics (rows : List MRow) (n start stop : Nat) :
    (∀ r : MRow, inPeriod start stop r = true ↔ (start ≤ r.month ∧ r.month ≤ stop)) ∧
    (∀ r1 r2, r1.month = r2.month → r1.num_services = r2.num_services →
        svcRank (rows.filter (inPeriod start stop)) r1
          = svcRank (rows.filter (inPeriod start stop)) r2) ∧
    (∀ r, r ∈ topNPerMonth rows n start stop ↔
        (r ∈ rows ∧ inPeriod start stop r = true ∧
          ((rows.filter (fun x => inPeriod start stop x
              && (x.month == r.month && decide (r.num_services < x.num_services)))).length < n))) := by
  refine ⟨by simp [inPeriod], ?_, ?_⟩
  · intro r1 r2 hm hs
    simp only [svcRank, hm, hs]
  · intro r
    have hfil : (rows.filter (inPeriod start stop)).filter
          (fun x => x.month == r.month && decide (r.num_services < x.num_services))
        = rows.filter (fun x => inPeriod start stop x
            && (x.month == r.month && decide (r.num_services < x.num_services))) := by
      induction rows with
      | nil => rfl
      | cons a t iht =>
        by_cases hp : inPeriod start stop a = true
        · by_cases hq : (a.month == r.month && decide (r.num_services < a.num_services)) = true
          · simp [List.filter_cons, hp, hq, iht]
          · simp [List.filter_cons, hp, hq, iht]
        · simp [List.filter_cons, hp, iht]
    constructor
    · intro hr
      have hr2 := List.mem_filter.mp hr
      have hr3 := List.mem_filter.mp hr2.1
      refine ⟨hr3.1, hr3.2, ?_⟩
      have h3 : svcRank (rows.filter (inPeriod start stop)) r ≤ n :=
        of_decide_eq_true hr2.2
      simp only [svcRank] at h3
      rw [hfil] at h3
      omega
    · rintro ⟨hmem, hper, hcnt⟩
      apply List.mem_filter.mpr
      refine ⟨List.mem_filter.mpr ⟨hmem, hper⟩, ?_⟩
      apply decide_eq_true
      simp only [svcRank]
      rw [hfil]
      omega

/-- C8 witness: on `c8rows` with n=2 over months 6-8, the three stations
tied for rank 1 in month 6 are all selected, the trailing station of month 6
is excluded, and the tied stations share their rank. -/
theorem C8_rank_semantics_witness :
    ({ month := 6, station := "A", num_services := 10 } : MRow) ∈ topNPerMonth c8rows 2 6 8 ∧
    ({ month := 6, station := "B", num_services := 10 } : MRow) ∈ topNPerMonth c8rows 2 6 8 ∧
    ({ month := 6, station := "C", num_services := 10 } : MRow) ∈ topNPerMonth c8rows 2 6 8 ∧
    ({ month := 6, station := "D", num_services := 5 } : MRow) ∉ topNPerMonth c8rows 2 6 8 ∧
    svcRank (c8rows.filter (inPeriod 6 8)) { month := 6, station := "A", num_services := 10 }
      = svcRank (c8rows.filter (inPeriod 6 8)) { month := 6, station := "B", num_services := 10 } := by
  have h := C8_rank_semantics c8rows 2 6 8
  refine ⟨(h.2.2 _).mpr (by decide), (h.2.2 _).mpr (by decide), (h.2.2 _).mpr (by decide),
    (not_congr (h.2.2 _)).mpr (by decide), h.2.1 _ _ rfl rfl⟩

end DuckRail
